import Mathlib

/-!
Verification of the email digest pipeline implemented in
`src/email_summary_bot/run_once.py`.

The Python module is shallowly embedded here:
* a TSV row (a `csv.DictReader` dict) becomes `Row`, with `Option String`
  fields (`none` models an absent key, `some s` a present value `s`);
* the external summarization backend (`gemini_request`) becomes an oracle
  `String → Option String` mapping a prompt to either the extracted summary
  text or `none` (any raised exception: transport, HTTP, or extraction);
* `main`'s orchestration becomes `mainRun`, a pure function from the run's
  external inputs to its terminal outcome plus an effect record (network
  calls issued, records handed to the summarization stage, temp-file state).
Python string slicing and `splitlines` are modelled on code-point lists.
-/

namespace EmailBot

/-- Python string slicing `s[:n]`: the first `n` code points of `s`. -/
def pyTake (s : String) (n : Nat) : String := ⟨s.data.take n⟩

/-- Model of `str.splitlines()[0]`: the code points before the first line
terminator (`\n` or `\r`). -/
def firstLine (s : String) : String := ⟨s.data.takeWhile (fun c => c != '\n' && c != '\r')⟩

/-- One row of the TSV export, as produced by `csv.DictReader`: each field is
`none` when the key is absent from the row dict and `some s` when present. -/
structure Row where
  sender : Option String
  subject : Option String
  received_at : Option String
  body : Option String
deriving DecidableEq, Repr

/-- A row dict with no keys at all is falsy in Python; `parse_tsv` drops such
rows (`if row` in the list comprehension, line 101). -/
def Row.isEmptyRow (r : Row) : Bool :=
  r.sender.isNone && r.subject.isNone && r.received_at.isNone && r.body.isNone

/-- Line 103: `row["received_at"] = row.get("received_at", "")`. -/
def normRow (r : Row) : Row :=
  { r with received_at := some (r.received_at.getD "") }

/-- The sort key of line 104: `r.get("received_at", "")`. -/
def rowKey (r : Row) : String := r.received_at.getD ""

/-- `parse_tsv` (lines 95-105). The file argument is `none` when the path does
not exist, `some rows` when it exists with the given parsed row dicts.
`rows.sort(key=..., reverse=True)` is Python's stable sort in descending key
order, embedded as `mergeSort` with the comparison `rowKey b ≤ rowKey a`
(stable: ties keep the left, i.e. original, element first). -/
def parse_tsv (file : Option (List Row)) : List Row :=
  match file with
  | none => []
  | some raw =>
    let rows := (raw.filter (fun r => !r.isEmptyRow)).map normRow
    rows.mergeSort (fun a b => decide (rowKey b ≤ rowKey a))

/-- `build_prompt` (lines 108-120): the fixed template with the row's fields
spliced in; `email_row.get("body", "")[:4000]` truncates the body. -/
def build_prompt (row : Row) : String :=
  "Summarize the following unread email in under 70 words. Highlight sender, topic, and any action items. Use single paragraph.\n" ++
  "Sender: " ++ row.sender.getD "Unknown" ++
  "\nSubject: " ++ row.subject.getD "(no subject)" ++
  "\nReceived: " ++ row.received_at.getD "" ++
  "\nBody:\n" ++ pyTake (row.body.getD "") 4000 ++ "\n"

/-- The summary dict appended on line 164. -/
structure SummaryRec where
  sender : String
  subject : String
  summary : String
deriving DecidableEq, Repr

/-- Line 164: `{"sender": row.get("sender", "Unknown"), "subject": row.get("subject", "(no subject)"), "summary": summary_text}`. -/
def summaryEntry (row : Row) (text : String) : SummaryRec :=
  { sender := row.sender.getD "Unknown"
    subject := row.subject.getD "(no subject)"
    summary := text }

/-- `summarize_emails` (lines 150-165). `req` is the oracle for
`gemini_request api_key model`: `some text` when the call returns text,
`none` when it raises (the record is then skipped by `continue`).
Besides the summaries, the list of prompts actually sent to the backend is
returned (empty in dry-run mode, where the network call is skipped). -/
def summarize_emails : List Row → (String → Option String) → Bool → List SummaryRec × List String
  | [], _, _ => ([], [])
  | row :: rest, req, dry_run =>
    let prompt := build_prompt row
    let rest_result := summarize_emails rest req dry_run
    if dry_run then
      (summaryEntry row ("[dry-run] " ++ firstLine prompt) :: rest_result.1, rest_result.2)
    else
      match req prompt with
      | some text => (summaryEntry row text :: rest_result.1, prompt :: rest_result.2)
      | none => (rest_result.1, prompt :: rest_result.2)

/-- Line 171: `divider = "-" * 30`. -/
def divider : String := ⟨List.replicate 30 '-'⟩

/-- Line 170: the digest header line; `now` is the formatted current time. -/
def headerLine (now : String) : String := "**UTD Mail Digest - " ++ now ++ "**"

/-- Lines 173-176: the three lines appended for one summary entry. -/
def entryLines (e : SummaryRec) : List String :=
  ["**" ++ e.sender ++ " — " ++ e.subject ++ "**", e.summary.trim, divider]

/-- `format_discord_payload` (lines 168-178), returning the `"content"` value.
The current-time stamp is passed in as `now`. -/
def format_discord_payload (now : String) (summaries : List SummaryRec) : String :=
  let lines := summaries.foldl (fun acc e => acc ++ entryLines e) [headerLine now]
  let kept := if lines.getLast? = some divider then lines.dropLast else lines
  pyTake (String.intercalate "\n" kept) 1900

/-- Line 230: `tmp_export.unlink(missing_ok=True)` — removal succeeds whether
or not the file currently exists, and afterwards it does not exist. -/
def unlink_missing_ok (_file_exists : Bool) : Bool := false

/-- External inputs of one `main` run. `export_res` models
`run_applescript` plus the file it writes: `Except.error code` when
`osascript` exits nonzero (raising `CalledProcessError`), `Except.ok file`
when it succeeds and the export path holds `file` (`none` = path missing).
`req` is the summarization oracle, `deliver_ok` whether `post_to_discord`
succeeds, `now` the clock reading used by the formatter. -/
structure RunInput where
  export_res : Except Nat (Option (List Row))
  req : String → Option String
  deliver_ok : Bool
  dry_run : Bool
  max_emails : Nat
  now : String

/-- Terminal outcome of a run: `exited code` for `sys.exit(code)` (including
the `CalledProcessError` handler, line 243), `crashed` for an exception that
no handler catches (a delivery failure propagating out of `main`). -/
inductive Outcome where
  | exited (code : Nat)
  | crashed
deriving DecidableEq, Repr

/-- Observable effects of one run: prompts sent to the summarization backend,
number of delivery posts, the records handed to `summarize_emails`, the
summaries it produced, the delivered payload content (if any), and whether
the temporary export file exists once the run has ended. -/
structure RunEffects where
  gemini_calls : List String
  discord_calls : Nat
  summarize_input : List Row
  summaries : List SummaryRec
  posted : Option String
  tmp_exists : Bool
deriving Repr

/-- The body of `main`'s `try:` block (lines 210-227) together with the
top-level exception handlers. `tmp_exists` is `true` throughout the body:
`tempfile.mkstemp` created the file on line 206. -/
def mainBody (inp : RunInput) : Outcome × RunEffects :=
  match inp.export_res with
  | .error code =>
    (.exited code,
     { gemini_calls := [], discord_calls := 0, summarize_input := [],
       summaries := [], posted := none, tmp_exists := true })
  | .ok file =>
    let emails := parse_tsv file
    if emails.isEmpty then
      (.exited 0,
       { gemini_calls := [], discord_calls := 0, summarize_input := [],
         summaries := [], posted := none, tmp_exists := true })
    else
      let capped := emails.take inp.max_emails
      let result := summarize_emails capped inp.req inp.dry_run
      if result.1.isEmpty then
        (.exited 0,
         { gemini_calls := result.2, discord_calls := 0, summarize_input := capped,
           summaries := result.1, posted := none, tmp_exists := true })
      else if inp.dry_run then
        (.exited 0,
         { gemini_calls := result.2, discord_calls := 0, summarize_input := capped,
           summaries := result.1, posted := none, tmp_exists := true })
      else
        let payload := format_discord_payload inp.now result.1
        if inp.deliver_ok then
          (.exited 0,
           { gemini_calls := result.2, discord_calls := 1, summarize_input := capped,
             summaries := result.1, posted := some payload, tmp_exists := true })
        else
          (.crashed,
           { gemini_calls := result.2, discord_calls := 1, summarize_input := capped,
             summaries := result.1, posted := some payload, tmp_exists := true })

/-- `main` (lines 196-232): the `try:` body followed by the unconditional
`finally:` block, which unlinks the temporary export file on every exit
path, raising or not. -/
def mainRun (inp : RunInput) : Outcome × RunEffects :=
  let body := mainBody inp
  (body.1, { body.2 with tmp_exists := unlink_missing_ok body.2.tmp_exists })

/-! ## Helper lemmas -/

/-- In live mode the loop of `summarize_emails` keeps exactly the rows whose
backend call returns text, in input order, and sends one request per row. -/
theorem summarize_emails_live (rows : List Row) (req : String → Option String) :
    summarize_emails rows req false =
      (rows.filterMap (fun row => (req (build_prompt row)).map (summaryEntry row)),
       rows.map build_prompt) := by
  induction rows with
  | nil => rfl
  | cons row rest ih =>
    simp only [summarize_emails, ih, Bool.false_eq_true, if_false, List.filterMap_cons,
      List.map_cons]
    cases h : req (build_prompt row) <;> simp [h]

/-- In dry-run mode every row yields the synthetic placeholder summary and no
request is sent. -/
theorem summarize_emails_dry (rows : List Row) (req : String → Option String) :
    summarize_emails rows req true =
      (rows.map (fun row =>
        summaryEntry row ("[dry-run] " ++ firstLine (build_prompt row))), []) := by
  induction rows with
  | nil => rfl
  | cons row rest ih => simp [summarize_emails, ih]

/-- Evaluating lengths of the Python slice model. -/
theorem pyTake_length (s : String) (n : Nat) : (pyTake s n).length = min n s.length := by
  show (s.data.take n).length = _
  exact List.length_take n s.data

/-- The only string `≤ ""` is `""` itself. -/
theorem le_empty_eq (s : String) (h : s ≤ "") : s = "" :=
  le_antisymm h (String.le_iff_toList_le.mpr List.nil_le)

/-- The comparison passed to the sort in `parse_tsv` is transitive. -/
theorem rowLe_trans (a b c : Row) (hab : decide (rowKey b ≤ rowKey a) = true)
    (hbc : decide (rowKey c ≤ rowKey b) = true) : decide (rowKey c ≤ rowKey a) = true := by
  simp only [decide_eq_true_eq] at *
  exact le_trans hbc hab

/-- The comparison passed to the sort in `parse_tsv` is total. -/
theorem rowLe_total (a b : Row) :
    (decide (rowKey b ≤ rowKey a) || decide (rowKey a ≤ rowKey b)) = true := by
  rcases le_total (rowKey b) (rowKey a) with h | h <;> simp [h]

/-- Unrolling the line-accumulating fold of `format_discord_payload`. -/
theorem format_fold (summaries : List SummaryRec) (init : List String) :
    summaries.foldl (fun acc e => acc ++ entryLines e) init =
      init ++ summaries.flatMap entryLines := by
  induction summaries generalizing init with
  | nil => simp
  | cons e rest ih => simp [List.flatMap_cons, ih, List.append_assoc]

/-- For a non-empty summary list the emitted entry lines end in a divider. -/
theorem bind_entryLines_concat (summaries : List SummaryRec) (h : summaries ≠ []) :
    ∃ l, summaries.flatMap entryLines = l ++ [divider] := by
  induction summaries with
  | nil => exact absurd rfl h
  | cons e rest ih =>
    cases hr : rest with
    | nil => exact ⟨["**" ++ e.sender ++ " — " ++ e.subject ++ "**", e.summary.trim], rfl⟩
    | cons f rest₂ =>
      obtain ⟨l, hl⟩ := ih (by simp [hr])
      rw [hr] at hl
      refine ⟨entryLines e ++ l, ?_⟩
      rw [List.flatMap_cons, hl, List.append_assoc]

end EmailBot

namespace EmailBot

/-! ## Claims -/

/-- Claim C1. Partial-failure tolerance: for every sequence of email records,
records whose summarization call fails (`none`) are skipped and the run
continues; the summary list contains exactly one `SummaryRec` per record whose
summarization succeeded, in the input's relative order. -/
theorem partial_failure_tolerance (rows : List Row) (req : String → Option String) :
    (summarize_emails rows req false).1 =
      rows.filterMap (fun row => (req (build_prompt row)).map (summaryEntry row)) := by
  rw [summarize_emails_live]

/-- A row whose `sender` and `subject` keys are present but hold `""`. -/
def emptyFieldRow : Row :=
  { sender := some "", subject := some "", received_at := some "2024-01-01T10:00",
    body := some "body" }

/-- Claim C2, counterexample: on a row whose `sender` and `subject` fields are
present but empty, `dict.get(key, default)` returns the empty string, so the
prompt renders an empty sender/subject and the derived summary record carries
empty `sender` and `subject` — not the placeholders. -/
theorem placeholder_defaulting_cex :
    (summarize_emails [emptyFieldRow] (fun _ => some "ok") false).1 =
      [{ sender := "", subject := "", summary := "ok" }] ∧
    build_prompt emptyFieldRow =
      "Summarize the following unread email in under 70 words. Highlight sender, topic, and any action items. Use single paragraph.\nSender: \nSubject: \nReceived: 2024-01-01T10:00\nBody:\nbody\n" := by
  constructor
  · rfl
  · rfl

/-- Claim C2, amended: a sender or subject that is absent from the source row
renders as the literal placeholder (`"Unknown"` / `"(no subject)"`) both in
the prompt and in the derived summary record; a field that is present — even
as the empty string — is used verbatim. -/
theorem placeholder_defaulting (row : Row) (text : String)
    (hs : row.sender = none) (hj : row.subject = none) :
    (summaryEntry row text).sender = "Unknown" ∧
    (summaryEntry row text).subject = "(no subject)" ∧
    build_prompt row =
      "Summarize the following unread email in under 70 words. Highlight sender, topic, and any action items. Use single paragraph.\n" ++
      "Sender: " ++ "Unknown" ++
      "\nSubject: " ++ "(no subject)" ++
      "\nReceived: " ++ row.received_at.getD "" ++
      "\nBody:\n" ++ pyTake (row.body.getD "") 4000 ++ "\n" := by
  refine ⟨?_, ?_, ?_⟩
  · simp [summaryEntry, hs]
  · simp [summaryEntry, hj]
  · simp only [build_prompt, hs, hj, Option.getD_none]

/-- A row with no `sender` and no `subject` key. -/
def absentFieldRow : Row :=
  { sender := none, subject := none, received_at := some "2024-01-01T10:00",
    body := some "body" }

/-- Witness for the amended claim C2 at a concrete row. -/
theorem placeholder_defaulting_witness :
    (summaryEntry absentFieldRow "s").sender = "Unknown" ∧
    (summaryEntry absentFieldRow "s").subject = "(no subject)" :=
  ⟨(placeholder_defaulting absentFieldRow "s" rfl rfl).1,
   (placeholder_defaulting absentFieldRow "s" rfl rfl).2.1⟩

/-- Claim C3. Parser ordering: the parsed sequence is sorted descending by
`received_at` under plain string comparison; no row in the output is missing
its `received_at` (a missing one was replaced by `""`); and once a row with
`received_at = ""` appears, every later row also has `""` — the empty string
sorts last. -/
theorem parser_ordering (file : Option (List Row)) :
    List.Pairwise (fun a b => rowKey b ≤ rowKey a) (parse_tsv file) ∧
    (∀ r ∈ parse_tsv file, r.received_at ≠ none) ∧
    (∀ l₁ a l₂, parse_tsv file = l₁ ++ a :: l₂ → a.received_at = some "" →
      ∀ b ∈ l₂, b.received_at = some "") := by
  have hpair : List.Pairwise (fun a b => rowKey b ≤ rowKey a) (parse_tsv file) := by
    match file with
    | none => exact List.Pairwise.nil
    | some raw =>
      have h := @List.sorted_mergeSort Row (fun a b => decide (rowKey b ≤ rowKey a))
        rowLe_trans rowLe_total ((raw.filter (fun r => !r.isEmptyRow)).map normRow)
      exact h.imp (fun hab => of_decide_eq_true hab)
  have hsome : ∀ r ∈ parse_tsv file, r.received_at ≠ none := by
    match file with
    | none => intro r hr; cases hr
    | some raw =>
      intro r hr
      rw [parse_tsv, List.mem_mergeSort, List.mem_map] at hr
      obtain ⟨x, -, hx⟩ := hr
      rw [← hx]
      simp [normRow]
  refine ⟨hpair, hsome, ?_⟩
  intro l₁ a l₂ hsplit ha b hb
  have hrel : rowKey b ≤ rowKey a := by
    rw [hsplit] at hpair
    exact (List.pairwise_cons.mp (List.pairwise_append.mp hpair).2.1).1 b hb
  have hka : rowKey a = "" := by simp [rowKey, ha]
  have hkb : rowKey b = "" := le_empty_eq _ (hka ▸ hrel)
  have hbmem : b ∈ parse_tsv file := by
    rw [hsplit]
    exact List.mem_append_right _ (List.mem_cons_of_mem _ hb)
  have := hsome b hbmem
  cases hB : b.received_at with
  | none => exact absurd hB this
  | some s =>
    have : rowKey b = s := by simp [rowKey, hB]
    rw [hkb] at this
    exact congrArg some this.symm

/-- Claim C10. Parser sort stability: two distinct rows of the file with equal
`received_at` keys appear in the parser's output in the same relative order
they had in the file (the list fed to the sort preserves file order, and the
sort is stable on ties). -/
theorem parser_sort_stability (raw : List Row) (a b : Row)
    (hk : rowKey a = rowKey b)
    (hsub : List.Sublist [a, b] ((raw.filter (fun r => !r.isEmptyRow)).map normRow)) :
    List.Sublist [a, b] (parse_tsv (some raw)) := by
  rw [parse_tsv]
  exact List.pair_sublist_mergeSort rowLe_trans rowLe_total
    (by simp [hk]) hsub

/-- Two concrete distinct rows sharing the same `received_at`. -/
def tieRowA : Row :=
  { sender := some "Alice", subject := some "x", received_at := some "2024-01-01T10:00",
    body := some "a" }

/-- Second concrete row with the same `received_at` as `tieRowA`. -/
def tieRowB : Row :=
  { sender := some "Bob", subject := some "y", received_at := some "2024-01-01T10:00",
    body := some "b" }

/-- Witness for claim C10 on a concrete two-row file with tied keys. -/
theorem parser_sort_stability_witness :
    List.Sublist [tieRowA, tieRowB] (parse_tsv (some [tieRowA, tieRowB])) := by
  have hmap :
      (([tieRowA, tieRowB].filter (fun r => !r.isEmptyRow)).map normRow) =
        [tieRowA, tieRowB] := by decide
  exact parser_sort_stability [tieRowA, tieRowB] tieRowA tieRowB rfl
    (hmap ▸ List.Sublist.refl [tieRowA, tieRowB])

/-- Claim C5. Digest formatting: for a non-empty summary list the content is
the header line followed, per record in input order, by the bolded
sender — subject line, the trimmed summary and a divider, with the trailing
divider omitted; the content never exceeds 1900 characters and is cut to
exactly 1900 when the assembled text is longer. -/
theorem digest_formatting (now : String) (summaries : List SummaryRec)
    (h : summaries ≠ []) :
    format_discord_payload now summaries =
      pyTake (String.intercalate "\n"
        (headerLine now :: (summaries.flatMap entryLines).dropLast)) 1900 ∧
    (format_discord_payload now summaries).length ≤ 1900 ∧
    (1900 < (String.intercalate "\n"
        (headerLine now :: (summaries.flatMap entryLines).dropLast)).length →
      (format_discord_payload now summaries).length = 1900) := by
  obtain ⟨l, hl⟩ := bind_entryLines_concat summaries h
  have hform : format_discord_payload now summaries =
      pyTake (String.intercalate "\n"
        (headerLine now :: (summaries.flatMap entryLines).dropLast)) 1900 := by
    rw [format_discord_payload, format_fold, hl]
    have hcons : headerLine now :: (l ++ [divider]) =
        (headerLine now :: l) ++ [divider] := by simp
    rw [List.singleton_append, hcons, List.getLast?_concat, if_pos rfl,
      List.dropLast_concat, List.dropLast_concat]
  refine ⟨hform, ?_, ?_⟩
  · rw [hform, pyTake_length]
    exact min_le_left _ _
  · intro hlong
    rw [hform, pyTake_length]
    exact Nat.min_eq_left (Nat.le_of_lt hlong)

/-- A concrete summary record for the formatter witness. -/
def witnessSummary : SummaryRec :=
  { sender := "Alice", subject := "Budget", summary := " ok " }

/-- Witness for claim C5 at a concrete one-entry digest. -/
theorem digest_formatting_witness :
    format_discord_payload "2024-01-01 10:00" [witnessSummary] =
      pyTake (String.intercalate "\n"
        (headerLine "2024-01-01 10:00" :: ([witnessSummary].flatMap entryLines).dropLast)) 1900 ∧
    (format_discord_payload "2024-01-01 10:00" [witnessSummary]).length ≤ 1900 :=
  ⟨(digest_formatting "2024-01-01 10:00" [witnessSummary] (by simp)).1,
   (digest_formatting "2024-01-01 10:00" [witnessSummary] (by simp)).2.1⟩

/-- The fixed part of the prompt before the embedded body; it does not depend
on the row's `body` field. -/
def promptHead (row : Row) : String :=
  "Summarize the following unread email in under 70 words. Highlight sender, topic, and any action items. Use single paragraph.\n" ++
  "Sender: " ++ row.sender.getD "Unknown" ++
  "\nSubject: " ++ row.subject.getD "(no subject)" ++
  "\nReceived: " ++ row.received_at.getD "" ++
  "\nBody:\n"

/-- Claim C9. Prompt body truncation: the prompt embeds at most the first 4000
characters of the body (a true initial segment of it), and the rest of the
prompt is the fixed template with sender, subject and timestamp, unaffected by
the body. The mapping is a pure function, hence deterministic. -/
theorem prompt_body_truncation (row : Row) :
    build_prompt row = promptHead row ++ pyTake (row.body.getD "") 4000 ++ "\n" ∧
    (pyTake (row.body.getD "") 4000).length ≤ 4000 ∧
    (∃ rest, (row.body.getD "").data = (pyTake (row.body.getD "") 4000).data ++ rest) ∧
    (∀ b, promptHead { row with body := b } = promptHead row) := by
  refine ⟨?_, ?_, ⟨(row.body.getD "").data.drop 4000, ?_⟩, fun b => rfl⟩
  · simp [build_prompt, promptHead, String.append_assoc]
  · rw [pyTake_length]
    exact min_le_left _ _
  · exact (List.take_append_drop 4000 _).symm

/-- Claim C4. Record cap: when `M > N` rows are parsed and the cap is `N`,
exactly the first `N` records of the sorted sequence reach the summarization
stage, and the backend is called only for those capped records — in dry-run
mode not at all, otherwise once per capped record (never once per parsed
record). -/
theorem record_cap (inp : RunInput) (file : Option (List Row)) (N : Nat)
    (hex : inp.export_res = .ok file) (hN : inp.max_emails = N)
    (hM : N < (parse_tsv file).length) :
    (mainRun inp).2.summarize_input = (parse_tsv file).take N ∧
    ((mainRun inp).2.summarize_input).length = N ∧
    (mainRun inp).2.gemini_calls =
      (if inp.dry_run then [] else ((parse_tsv file).take N).map build_prompt) := by
  have hne : parse_tsv file ≠ [] := by
    intro h0
    rw [h0] at hM
    exact Nat.not_lt_zero _ hM
  have hin : (mainRun inp).2.summarize_input = (parse_tsv file).take N := by
    simp only [mainRun, mainBody, hex, hN]
    split
    · next h => exact absurd (List.isEmpty_iff.mp h) hne
    · split
      · rfl
      · split
        · rfl
        · split <;> rfl
  refine ⟨hin, ?_, ?_⟩
  · rw [hin, List.length_take]
    exact Nat.min_eq_left (Nat.le_of_lt hM)
  · have hcalls : (mainRun inp).2.gemini_calls =
        (summarize_emails ((parse_tsv file).take N) inp.req inp.dry_run).2 := by
      simp only [mainRun, mainBody, hex, hN]
      split
      · next h => exact absurd (List.isEmpty_iff.mp h) hne
      · split
        · rfl
        · split
          · rfl
          · split <;> rfl
    rw [hcalls]
    cases hd : inp.dry_run
    · rw [summarize_emails_live]
      simp
    · rw [summarize_emails_dry]
      simp

/-- Most recent row of the concrete two-row export. -/
def capRow1 : Row :=
  { sender := some "Alice", subject := some "Budget",
    received_at := some "2024-01-01T10:00", body := some "Need approval" }

/-- Older row of the concrete two-row export. -/
def capRow2 : Row :=
  { sender := some "Bob", subject := some "Lunch",
    received_at := some "2024-01-01T09:00", body := some "Noon?" }

/-- A concrete run: two parsed rows, cap 1, dry-run mode. -/
def capInput : RunInput :=
  { export_res := .ok (some [capRow2, capRow1]), req := fun _ => some "ok",
    deliver_ok := true, dry_run := true, max_emails := 1, now := "t" }

/-- Witness for claim C4 on the concrete capped run. -/
theorem record_cap_witness :
    (mainRun capInput).2.summarize_input = (parse_tsv (some [capRow2, capRow1])).take 1 ∧
    ((mainRun capInput).2.summarize_input).length = 1 ∧
    (mainRun capInput).2.gemini_calls =
      (if capInput.dry_run then []
       else ((parse_tsv (some [capRow2, capRow1])).take 1).map build_prompt) :=
  record_cap capInput (some [capRow2, capRow1]) 1 rfl rfl
    (by rw [parse_tsv, List.length_mergeSort]; decide)

/-- Claim C6. Temp-file cleanup: on every exit path of a run — success,
empty-export, empty-summary, export failure, or an unhandled delivery
exception — the temporary export file no longer exists once the run ends,
and the removal itself tolerates the file already being absent. -/
theorem temp_file_cleanup (inp : RunInput) :
    (mainRun inp).2.tmp_exists = false ∧ ∀ b, unlink_missing_ok b = false :=
  ⟨rfl, fun _ => rfl⟩

/-- A dry run whose export subprocess fails with exit code 2. -/
def dryFailInput : RunInput :=
  { export_res := .error 2, req := fun _ => none, deliver_ok := true,
    dry_run := true, max_emails := 15, now := "t" }

/-- Claim C7, counterexample: a run with the dry-run flag set whose export
subprocess fails exits with the subprocess's code 2, not 0 — so "the run
terminates with exit code 0" does not hold of every simulation-mode run. -/
theorem simulation_mode_cex :
    dryFailInput.dry_run = true ∧ (mainRun dryFailInput).1 = .exited 2 ∧
    Outcome.exited 2 ≠ Outcome.exited 0 :=
  ⟨rfl, rfl, by decide⟩

/-- Claim C7, amended: in every dry run no summarization or delivery network
call is made; and whenever the export step succeeds, the run exits 0 without
reaching delivery, each record's summary being the synthetic placeholder
built from the first line of its prompt. -/
theorem simulation_mode (inp : RunInput) (hdry : inp.dry_run = true) :
    (mainRun inp).2.gemini_calls = [] ∧
    (mainRun inp).2.discord_calls = 0 ∧
    ∀ file, inp.export_res = .ok file →
      (mainRun inp).1 = .exited 0 ∧
      (mainRun inp).2.summaries =
        ((parse_tsv file).take inp.max_emails).map
          (fun row => summaryEntry row ("[dry-run] " ++ firstLine (build_prompt row))) := by
  cases hex : inp.export_res with
  | error code =>
    refine ⟨?_, ?_, ?_⟩
    · simp [mainRun, mainBody, hex]
    · simp [mainRun, mainBody, hex]
    · intro file hfile
      exact Except.noConfusion hfile
  | ok file =>
    have hres : summarize_emails ((parse_tsv file).take inp.max_emails) inp.req true =
        (((parse_tsv file).take inp.max_emails).map
          (fun row => summaryEntry row ("[dry-run] " ++ firstLine (build_prompt row))), []) :=
      summarize_emails_dry _ _
    refine ⟨?_, ?_, ?_⟩
    · simp only [mainRun, mainBody, hex, hres, hdry, if_true]
      split
      · rfl
      · split <;> rfl
    · simp only [mainRun, mainBody, hex, hres, hdry, if_true]
      split
      · rfl
      · split <;> rfl
    · intro file₂ hfile₂
      injection hfile₂ with h
      subst h
      constructor
      · simp only [mainRun, mainBody, hex, hres, hdry, if_true]
        split
        · rfl
        · split <;> rfl
      · simp only [mainRun, mainBody, hex, hres, hdry, if_true]
        split
        · next h =>
          rw [List.isEmpty_iff.mp h]
          simp
        · split <;> rfl

/-- A concrete dry run over a one-row export. -/
def dryInput : RunInput :=
  { export_res := .ok (some [capRow1]), req := fun _ => none, deliver_ok := true,
    dry_run := true, max_emails := 15, now := "t" }

/-- Witness for the amended claim C7 on the concrete dry run. -/
theorem simulation_mode_witness :
    (mainRun dryInput).2.gemini_calls = [] ∧
    (mainRun dryInput).1 = .exited 0 :=
  ⟨(simulation_mode dryInput rfl).1,
   ((simulation_mode dryInput rfl).2.2 (some [capRow1]) rfl).1⟩

/-- Claim C8. Empty short-circuit: if no rows are parsed (in particular if the
export path does not exist), the run exits 0 with no summarization and no
delivery call; and if rows exist but every summarization attempt fails, the
run exits 0 and delivery is never invoked. -/
theorem empty_short_circuit (inp : RunInput) (file : Option (List Row))
    (hex : inp.export_res = .ok file) :
    (parse_tsv file = [] →
      (mainRun inp).1 = .exited 0 ∧ (mainRun inp).2.gemini_calls = [] ∧
      (mainRun inp).2.discord_calls = 0) ∧
    (inp.dry_run = false → (∀ p, inp.req p = none) →
      (mainRun inp).1 = .exited 0 ∧ (mainRun inp).2.discord_calls = 0) := by
  constructor
  · intro hpe
    refine ⟨?_, ?_, ?_⟩ <;> simp [mainRun, mainBody, hex, hpe]
  · intro hdry hreq
    have hres : (summarize_emails ((parse_tsv file).take inp.max_emails) inp.req inp.dry_run).1 = [] := by
      rw [hdry, summarize_emails_live]
      exact List.filterMap_eq_nil_iff.mpr (fun a _ => by rw [hreq]; rfl)
    constructor
    · simp only [mainRun, mainBody, hex]
      split
      · rfl
      · split
        · rfl
        · next h => exact absurd (List.isEmpty_iff.mpr hres) h
    · simp only [mainRun, mainBody, hex]
      split
      · rfl
      · split
        · rfl
        · next h => exact absurd (List.isEmpty_iff.mpr hres) h

/-- A concrete run whose export path does not exist. -/
def missingExportInput : RunInput :=
  { export_res := .ok none, req := fun _ => none, deliver_ok := true,
    dry_run := false, max_emails := 15, now := "t" }

/-- Witness for claim C8 on a run with a non-existent export path. -/
theorem empty_short_circuit_witness :
    (mainRun missingExportInput).1 = .exited 0 ∧
    (mainRun missingExportInput).2.gemini_calls = [] ∧
    (mainRun missingExportInput).2.discord_calls = 0 :=
  (empty_short_circuit missingExportInput none rfl).1 rfl

end EmailBot
